import Mathlib

/-
Verification of the SafetyVision alert escalation and emergency-stop subsystem.

The definitions below are a shallow embedding of
  src/safetyvision/communication/alert_system.py   (AlertManager and helpers)
  src/safetyvision/navigation/emergency_stop.py    (EmergencyStopSystem)
Python dictionaries are modelled as association lists with unique keys
(insert overwrites in place, delete removes the key), timestamps are opaque
strings supplied by the caller (standing for datetime.now()), numeric sensor
readings are rationals, and the asynchronous timer bodies and callback loops
are modelled as explicit state-transforming functions.  Raised exceptions are
modelled as an Option String error component returned next to the state.
-/

namespace SafetyVision

/-- Lookup in an association list, mirroring Python dict subscript/get. -/
def alistLookup {α : Type} : List (String × α) → String → Option α
  | [], _ => none
  | (k, v) :: rest, key => if k = key then some v else alistLookup rest key

/-- Insert or overwrite a key, mirroring Python `d[k] = v` on an
insertion-ordered dict with unique keys. -/
def alistInsert {α : Type} : List (String × α) → String → α → List (String × α)
  | [], key, val => [(key, val)]
  | (k, v) :: rest, key, val =>
    if k = key then (key, val) :: rest else (k, v) :: alistInsert rest key val

/-- Remove a key, mirroring Python `del d[k]` / `d.pop(k)` on a dict with
unique keys (all occurrences are dropped so the model is robust even on
lists that do not satisfy the uniqueness invariant). -/
def alistErase {α : Type} (l : List (String × α)) (key : String) : List (String × α) :=
  l.filter (fun kv => decide (kv.1 ≠ key))

/-- Alert severity levels (alert_system.py, class AlertSeverity). -/
inductive AlertSeverity
  | INFO
  | WARNING
  | ERROR
  | CRITICAL
  | EMERGENCY
  deriving DecidableEq, Repr

/-- Numeric value of a severity, as in the Python Enum. -/
def AlertSeverity.value : AlertSeverity → Nat
  | .INFO => 1
  | .WARNING => 2
  | .ERROR => 3
  | .CRITICAL => 4
  | .EMERGENCY => 5

/-- Delivery channels (alert_system.py, class AlertChannel). -/
inductive AlertChannel
  | email
  | sms
  | dashboard
  | audioChannel
  | logChannel
  | webhook
  | mqtt
  deriving DecidableEq, Repr

/-- Opaque structured sensor payload attached to an alert (a Python dict of
numeric readings). -/
abbrev SensorPayload := List (String × Rat)

/-- Alert record (alert_system.py, @dataclass Alert).  The `timestamp` field
holds the opaque creation time string. -/
structure Alert where
  id : String
  severity : AlertSeverity
  title : String
  message : String
  timestamp : String
  source : String
  location : Option String
  sensor_data : Option SensorPayload
  requires_acknowledgment : Bool
  auto_escalate_after : Option Nat
  tags : List String
  deriving DecidableEq, Repr

/-- Subscription record (alert_system.py, @dataclass AlertSubscription).
Quiet hours are an opaque start/end pair. -/
structure AlertSubscription where
  user_id : String
  channels : List AlertChannel
  severity_filter : List AlertSeverity
  location_filter : Option (List String)
  source_filter : Option (List String)
  quiet_hours : Option (String × String)
  deriving DecidableEq, Repr

/-- Acknowledgment info stored in acknowledged_alerts. -/
structure Acknowledgment where
  user_id : String
  timestamp : String
  message : String
  deriving DecidableEq, Repr

/-- One attempted channel dispatch recorded by the delivery fan-out; `ok`
is false when the channel adapter raised and the exception was caught and
logged by _deliver_to_channel. -/
structure DeliveryRecord where
  user_id : String
  channel : AlertChannel
  alert_id : String
  ok : Bool
  deriving DecidableEq, Repr

/-- Channel adapters are injected capabilities; an `Except.error` stands for
the adapter raising an exception. -/
abbrev Adapters := AlertChannel → Alert → Except String Unit

/-- Python truthiness of an optional list (None and the empty list are
falsy). -/
def pyTruthyList {α : Type} : Option (List α) → Bool
  | none => false
  | some l => !l.isEmpty

/-- Python truthiness of an optional string (None and the empty string are
falsy). -/
def pyTruthyStr : Option String → Bool
  | none => false
  | some s => !(s = "")

/-- Python truthiness of an optional integer (None and 0 are falsy). -/
def pyTruthyNat : Option Nat → Bool
  | none => false
  | some n => decide (n ≠ 0)

/-- AlertManager._should_deliver_to_subscription.  The quiet-hours block in
the source only computes the current time and never suppresses anything, so
it has no effect on the result. -/
def shouldDeliverToSubscription (alert : Alert) (subscription : AlertSubscription) : Bool :=
  if !(decide (alert.severity ∈ subscription.severity_filter)) then false
  else if pyTruthyList subscription.location_filter && pyTruthyStr alert.location
      && !(decide ((alert.location.getD "") ∈ (subscription.location_filter.getD []))) then false
  else if pyTruthyList subscription.source_filter
      && !(decide (alert.source ∈ (subscription.source_filter.getD []))) then false
  else true

/-- AlertManager._deliver_to_channel: dispatch one channel and catch any
adapter exception (recorded as ok = false, matching the logged failure). -/
def deliverToChannel (adapters : Adapters) (alert : Alert) (channel : AlertChannel)
    (subscription : AlertSubscription) : DeliveryRecord :=
  match adapters channel alert with
  | .ok _ => ⟨subscription.user_id, channel, alert.id, true⟩
  | .error _ => ⟨subscription.user_id, channel, alert.id, false⟩

/-- The fan-out of AlertManager._deliver_alert: one dispatch per channel of
every matching subscription (the asyncio.gather with return_exceptions=True
makes every dispatch independent). -/
def matchedDeliveries (adapters : Adapters) (subscriptions : List AlertSubscription)
    (alert : Alert) : List DeliveryRecord :=
  (subscriptions.filter (fun sub => shouldDeliverToSubscription alert sub)).flatMap
    (fun sub => sub.channels.map (fun ch => deliverToChannel adapters alert ch sub))

/-- AlertManager state (the mutable attributes set in __init__).
delivery_log and callback_log record the observable side effects of the
delivery fan-out and of the registered alert callbacks. -/
structure AlertManagerState where
  active_alerts : List (String × Alert)
  acknowledged_alerts : List (String × Acknowledgment)
  subscriptions : List AlertSubscription
  escalation_tasks : List (String × Nat)
  alert_history : List Alert
  delivery_log : List DeliveryRecord
  callback_log : List Alert
  deriving DecidableEq, Repr

/-- AlertManager._deliver_alert acting on the manager state. -/
def deliverAlert (adapters : Adapters) (s : AlertManagerState) (alert : Alert) :
    AlertManagerState :=
  { s with delivery_log := s.delivery_log ++ matchedDeliveries adapters s.subscriptions alert }

/-- Default escalation delay table of send_alert (seconds by severity). -/
def escalationTime : AlertSeverity → Option Nat
  | .EMERGENCY => some 60
  | .CRITICAL => some 300
  | .ERROR => some 900
  | .WARNING => some 1800
  | .INFO => none

/-- Alert id generation of send_alert:
`f"alert_{datetime.now().strftime(...)}_{len(self.active_alerts)}"`. -/
def mkAlertId (ts : String) (activeCount : Nat) : String :=
  "alert_" ++ ts ++ "_" ++ toString activeCount

/-- Default acknowledgment-requirement policy of send_alert (true iff the
severity is CRITICAL or EMERGENCY) applied when the caller passed None. -/
def resolveRequiresAck (severity : AlertSeverity) (requires_acknowledgment : Option Bool) : Bool :=
  match requires_acknowledgment with
  | some b => b
  | none => decide (severity = .CRITICAL) || decide (severity = .EMERGENCY)

/-- Default escalation delay applied when the caller passed None. -/
def resolveEscalateAfter (severity : AlertSeverity) (auto_escalate_after : Option Nat) :
    Option Nat :=
  match auto_escalate_after with
  | some d => some d
  | none => escalationTime severity

/-- The Alert record assembled by send_alert (lines 247-278). -/
def mkSentAlert (ts : String) (activeCount : Nat) (severity : AlertSeverity)
    (title message source : String) (location : Option String)
    (sensor_data : Option SensorPayload) (requires_acknowledgment : Option Bool)
    (auto_escalate_after : Option Nat) (tags : Option (List String)) : Alert :=
  { id := mkAlertId ts activeCount
    severity := severity
    title := title
    message := message
    timestamp := ts
    source := source
    location := location
    sensor_data := sensor_data
    requires_acknowledgment := resolveRequiresAck severity requires_acknowledgment
    auto_escalate_after := resolveEscalateAfter severity auto_escalate_after
    tags := tags.getD [] }

/-- AlertManager.send_alert: allocate the id, apply the default policies,
store the alert, run the delivery fan-out, start the escalation timer when
`auto_escalate_after and requires_acknowledgment` is truthy, and invoke the
registered callbacks.  Returns the alert id with the updated state. -/
def sendAlert (adapters : Adapters) (s : AlertManagerState) (ts : String)
    (severity : AlertSeverity) (title message source : String)
    (location : Option String) (sensor_data : Option SensorPayload)
    (requires_acknowledgment : Option Bool) (auto_escalate_after : Option Nat)
    (tags : Option (List String)) : String × AlertManagerState :=
  let alert_id := mkAlertId ts s.active_alerts.length
  let alert := mkSentAlert ts s.active_alerts.length severity title message source
      location sensor_data requires_acknowledgment auto_escalate_after tags
  let s1 := { s with
              active_alerts := alistInsert s.active_alerts alert_id alert
              alert_history := s.alert_history ++ [alert] }
  let s2 := deliverAlert adapters s1 alert
  let newTasks := alistInsert s2.escalation_tasks alert_id (alert.auto_escalate_after.getD 0)
  let s3 := if pyTruthyNat alert.auto_escalate_after && alert.requires_acknowledgment then
      { s2 with escalation_tasks := newTasks }
    else s2
  let s4 := { s3 with callback_log := s3.callback_log ++ [alert] }
  (alert_id, s4)

/-- AlertManager.acknowledge_alert: the first component carries the raised
ValueError message when the id is not active (the state is then returned
unchanged, since the exception is raised before any mutation). -/
def acknowledgeAlert (adapters : Adapters) (s : AlertManagerState) (ts : String)
    (alert_id user_id message : String) : Option String × AlertManagerState :=
  match alistLookup s.active_alerts alert_id with
  | none => (some ("Alert " ++ alert_id ++ " not found or already resolved"), s)
  | some alert =>
    let ack : Acknowledgment := ⟨user_id, ts, message⟩
    let s1 := { s with acknowledged_alerts := alistInsert s.acknowledged_alerts alert_id ack }
    let s2 := { s1 with escalation_tasks := alistErase s1.escalation_tasks alert_id }
    let r := sendAlert adapters s2 ts .INFO ("Alert Acknowledged: " ++ alert.title)
        ("Alert " ++ alert_id ++ " has been acknowledged by " ++ user_id ++
          ". Message: " ++ message)
        "alert_system" none none none none (some ["acknowledgment"])
    (none, r.2)

/-- AlertManager.resolve_alert: pop the alert from the active set, cancel a
pending escalation task, and emit the INFO resolution notice. -/
def resolveAlert (adapters : Adapters) (s : AlertManagerState) (ts : String)
    (alert_id user_id resolution_message : String) : Option String × AlertManagerState :=
  match alistLookup s.active_alerts alert_id with
  | none => (some ("Alert " ++ alert_id ++ " not found or already resolved"), s)
  | some alert =>
    let s1 := { s with active_alerts := alistErase s.active_alerts alert_id }
    let s2 := { s1 with escalation_tasks := alistErase s1.escalation_tasks alert_id }
    let r := sendAlert adapters s2 ts .INFO ("Alert Resolved: " ++ alert.title)
        ("Alert " ++ alert_id ++ " has been resolved by " ++ user_id ++
          ". Resolution: " ++ resolution_message)
        "alert_system" none none none none (some ["resolution"])
    (none, r.2)

/-- The body of AlertManager._auto_escalate_alert after the cancellable
sleep has completed without being cancelled (an asyncio task body runs at
most once).  Mirrors the source liveness re-check: the escalation alert is
sent only when the alert is still active and not acknowledged. -/
def autoEscalateFire (adapters : Adapters) (s : AlertManagerState) (ts : String)
    (alert_id : String) (delay_seconds : Nat) : AlertManagerState :=
  match alistLookup s.active_alerts alert_id, alistLookup s.acknowledged_alerts alert_id with
  | some alert, none =>
    let escalated_severity :=
      if alert.severity ≠ AlertSeverity.EMERGENCY then AlertSeverity.EMERGENCY
      else AlertSeverity.EMERGENCY
    (sendAlert adapters s ts escalated_severity ("ESCALATED: " ++ alert.title)
        ("Alert " ++ alert_id ++ " was not acknowledged within " ++
          toString delay_seconds ++ " seconds. Original: " ++ alert.message)
        "alert_escalation" alert.location alert.sensor_data none none
        (some (["escalated"] ++ alert.tags))).2
  | _, _ => s

/-- The three default subscriptions installed by
AlertManager._setup_default_subscriptions. -/
def defaultSubscriptions : List AlertSubscription :=
  [ { user_id := "emergency_operator"
      channels := [.email, .sms, .audioChannel, .dashboard]
      severity_filter := [.CRITICAL, .EMERGENCY]
      location_filter := none, source_filter := none, quiet_hours := none },
    { user_id := "safety_manager"
      channels := [.email, .dashboard]
      severity_filter := [.WARNING, .ERROR, .CRITICAL, .EMERGENCY]
      location_filter := none, source_filter := none, quiet_hours := none },
    { user_id := "system_admin"
      channels := [.email, .dashboard, .logChannel]
      severity_filter := [.INFO, .WARNING, .ERROR, .CRITICAL, .EMERGENCY]
      location_filter := none, source_filter := none, quiet_hours := none } ]

/-- AlertManager.__init__. -/
def initialAlertManagerState : AlertManagerState :=
  { active_alerts := []
    acknowledged_alerts := []
    subscriptions := defaultSubscriptions
    escalation_tasks := []
    alert_history := []
    delivery_log := []
    callback_log := [] }

/-- Emergency severity levels (emergency_stop.py, class EmergencyLevel). -/
inductive EmergencyLevel
  | LOW
  | MEDIUM
  | HIGH
  | CRITICAL
  deriving DecidableEq, Repr

/-- Numeric value of an emergency level, as in the Python Enum. -/
def EmergencyLevel.value : EmergencyLevel → Nat
  | .LOW => 1
  | .MEDIUM => 2
  | .HIGH => 3
  | .CRITICAL => 4

/-- A sensor snapshot handed to check_emergency_conditions: the readings the
function inspects, each optional because Python uses dict.get with a
default (radiation defaults to 0.0, temperature to 20.0, gas_levels to the
empty dict, proximity_distance to positive infinity, i.e. absent). -/
structure SensorData where
  radiation_level : Option Rat
  temperature : Option Rat
  gas_levels : List (String × Rat)
  proximity_distance : Option Rat
  deriving DecidableEq, Repr

/-- Rendering of a rational reading inside a description string, standing in
for the Python float formatting inside the f-strings. -/
def ratStr (q : Rat) : String :=
  toString q.num ++ "/" ++ toString q.den

/-- Emergency event record (emergency_stop.py, @dataclass EmergencyEvent). -/
structure EmergencyEvent where
  level : EmergencyLevel
  trigger : String
  description : String
  timestamp : String
  sensor_data : SensorData
  location : Option (Rat × Rat)
  requires_evacuation : Bool
  deriving DecidableEq, Repr

/-- The gas_critical table inside self.thresholds (ppm by gas name). -/
def gasCriticalThresholds : List (String × Rat) :=
  [("hydrogen", 4000), ("carbon_monoxide", 200)]

/-- The emergency thresholds set in EmergencyStopSystem.__init__. -/
structure Thresholds where
  radiation_critical : Rat
  radiation_high : Rat
  temperature_critical : Rat
  gas_critical : List (String × Rat)
  vibration_critical : Rat
  proximity_emergency : Rat
  deriving DecidableEq, Repr

/-- Threshold values from EmergencyStopSystem.__init__ (these are never
mutated anywhere in the repository). -/
def defaultThresholds : Thresholds :=
  { radiation_critical := 2
    radiation_high := 1
    temperature_critical := 80
    gas_critical := gasCriticalThresholds
    vibration_critical := 25
    proximity_emergency := (1 : Rat) / 2 }

/-- The gas loop of check_emergency_conditions: the first entry of the
snapshot gas dict that is tracked in gas_critical and at or above its
critical ppm. -/
def findCriticalGas (gas_critical : List (String × Rat)) :
    List (String × Rat) → Option (String × Rat)
  | [] => none
  | (gas, level) :: rest =>
    match alistLookup gas_critical gas with
    | some c => if level ≥ c then some (gas, level) else findCriticalGas gas_critical rest
    | none => findCriticalGas gas_critical rest

/-- EmergencyStopSystem.check_emergency_conditions: pure classification of a
sensor snapshot against the thresholds, in the source order radiation,
temperature, gas, proximity; each branch returns immediately.  The function
reads only its arguments and mutates nothing (it is state-free by type). -/
def checkEmergencyConditions (th : Thresholds) (ts : String) (sensor_data : SensorData) :
    Option EmergencyEvent :=
  let radiation := sensor_data.radiation_level.getD 0
  if radiation ≥ th.radiation_critical then
    some { level := .CRITICAL
           trigger := "radiation_critical"
           description := "Critical radiation level detected: " ++ ratStr radiation ++ " mSv/h"
           timestamp := ts
           sensor_data := sensor_data
           location := none
           requires_evacuation := true }
  else if radiation ≥ th.radiation_high then
    some { level := .HIGH
           trigger := "radiation_high"
           description := "High radiation level detected: " ++ ratStr radiation ++ " mSv/h"
           timestamp := ts
           sensor_data := sensor_data
           location := none
           requires_evacuation := false }
  else
    let temperature := sensor_data.temperature.getD 20
    if temperature ≥ th.temperature_critical then
      some { level := .HIGH
             trigger := "temperature_critical"
             description := "Critical temperature detected: " ++ ratStr temperature ++ " degrees C"
             timestamp := ts
             sensor_data := sensor_data
             location := none
             requires_evacuation := false }
    else
      match findCriticalGas th.gas_critical sensor_data.gas_levels with
      | some (gas, level) =>
        some { level := .CRITICAL
               trigger := gas ++ "_critical"
               description := "Critical " ++ gas ++ " level detected: " ++ ratStr level ++ " ppm"
               timestamp := ts
               sensor_data := sensor_data
               location := none
               requires_evacuation := true }
      | none =>
        match sensor_data.proximity_distance with
        | some proximity =>
          if proximity ≤ th.proximity_emergency then
            some { level := .MEDIUM
                   trigger := "proximity_emergency"
                   description := "Emergency proximity detected: " ++ ratStr proximity ++ "m"
                   timestamp := ts
                   sensor_data := sensor_data
                   location := none
                   requires_evacuation := false }
          else none
        | none => none

/-- Observable side effects of the emergency stop sequences.  stopCallback
records one pass over the registered stop callbacks with the given mode
(every callback exception is caught, so the pass always completes);
alertCallback records one pass over the registered alert callbacks with the
given severity string and event description (_send_alerts). -/
inductive StopAction
  | stopCallback (mode : String)
  | evacuationAlarm
  | notifyEmergencyServices (description : String)
  | activateContainment
  | initiateSafetyProtocols
  | alertCallback (severity : String) (description : String)
  deriving DecidableEq, Repr

/-- EmergencyStopSystem mutable state (__init__), with an action log
recording the side-effect steps executed by the stop sequences. -/
structure EmergencyStopState where
  is_emergency_active : Bool
  current_emergency : Option EmergencyEvent
  emergency_history : List EmergencyEvent
  action_log : List StopAction
  deriving DecidableEq, Repr

/-- EmergencyStopSystem.__init__. -/
def initialEmergencyStopState : EmergencyStopState :=
  { is_emergency_active := false
    current_emergency := none
    emergency_history := []
    action_log := [] }

/-- EmergencyStopSystem._execute_immediate_stop. -/
def executeImmediateStop (s : EmergencyStopState) : EmergencyStopState :=
  { s with action_log := s.action_log ++ [.stopCallback "immediate"] }

/-- EmergencyStopSystem._execute_controlled_stop_sequence. -/
def executeControlledStopSequence (s : EmergencyStopState) : EmergencyStopState :=
  { s with action_log := s.action_log ++ [.stopCallback "controlled"] }

/-- EmergencyStopSystem._execute_gradual_stop. -/
def executeGradualStop (s : EmergencyStopState) : EmergencyStopState :=
  { s with action_log := s.action_log ++ [.stopCallback "gradual"] }

/-- EmergencyStopSystem._trigger_evacuation_alarm. -/
def triggerEvacuationAlarm (s : EmergencyStopState) : EmergencyStopState :=
  { s with action_log := s.action_log ++ [.evacuationAlarm] }

/-- EmergencyStopSystem._notify_emergency_services. -/
def notifyEmergencyServicesOp (s : EmergencyStopState) (e : EmergencyEvent) :
    EmergencyStopState :=
  { s with action_log := s.action_log ++ [.notifyEmergencyServices e.description] }

/-- EmergencyStopSystem._activate_containment. -/
def activateContainmentOp (s : EmergencyStopState) : EmergencyStopState :=
  { s with action_log := s.action_log ++ [.activateContainment] }

/-- EmergencyStopSystem._initiate_safety_protocols. -/
def initiateSafetyProtocolsOp (s : EmergencyStopState) : EmergencyStopState :=
  { s with action_log := s.action_log ++ [.initiateSafetyProtocols] }

/-- EmergencyStopSystem._send_alerts with a severity string (every alert
callback exception is caught, so the pass always completes). -/
def sendAlertsOp (s : EmergencyStopState) (e : EmergencyEvent) (severity : String) :
    EmergencyStopState :=
  { s with action_log := s.action_log ++ [.alertCallback severity e.description] }

/-- EmergencyStopSystem._send_critical_alerts (severity string CRITICAL). -/
def sendCriticalAlerts (s : EmergencyStopState) (e : EmergencyEvent) : EmergencyStopState :=
  sendAlertsOp s e "CRITICAL"

/-- EmergencyStopSystem._send_emergency_alerts (severity string EMERGENCY). -/
def sendEmergencyAlerts (s : EmergencyStopState) (e : EmergencyEvent) : EmergencyStopState :=
  sendAlertsOp s e "EMERGENCY"

/-- EmergencyStopSystem._send_warning_alerts (severity string WARNING). -/
def sendWarningAlerts (s : EmergencyStopState) (e : EmergencyEvent) : EmergencyStopState :=
  sendAlertsOp s e "WARNING"

/-- EmergencyStopSystem._send_info_alerts (severity string INFO). -/
def sendInfoAlerts (s : EmergencyStopState) (e : EmergencyEvent) : EmergencyStopState :=
  sendAlertsOp s e "INFO"

/-- EmergencyStopSystem._execute_critical_stop. -/
def executeCriticalStop (s : EmergencyStopState) (e : EmergencyEvent) : EmergencyStopState :=
  sendCriticalAlerts
    (activateContainmentOp (notifyEmergencyServicesOp (triggerEvacuationAlarm
      (executeImmediateStop s)) e)) e

/-- EmergencyStopSystem._execute_high_priority_stop. -/
def executeHighPriorityStop (s : EmergencyStopState) (e : EmergencyEvent) : EmergencyStopState :=
  initiateSafetyProtocolsOp (sendEmergencyAlerts (executeImmediateStop s) e)

/-- EmergencyStopSystem._execute_medium_priority_stop. -/
def executeMediumPriorityStop (s : EmergencyStopState) (e : EmergencyEvent) :
    EmergencyStopState :=
  sendWarningAlerts (executeControlledStopSequence s) e

/-- EmergencyStopSystem._execute_controlled_stop (the catch-all level). -/
def executeControlledStop (s : EmergencyStopState) (e : EmergencyEvent) : EmergencyStopState :=
  sendInfoAlerts (executeGradualStop s) e

/-- The activation and dispatch part of trigger_emergency_stop (lines
155-169): set the state, append to the history, and run the response
sequence chosen by the event level. -/
def activateAndExecute (s : EmergencyStopState) (e : EmergencyEvent) : EmergencyStopState :=
  let s1 := { s with
              is_emergency_active := true
              current_emergency := some e
              emergency_history := s.emergency_history ++ [e] }
  match e.level with
  | .CRITICAL => executeCriticalStop s1 e
  | .HIGH => executeHighPriorityStop s1 e
  | .MEDIUM => executeMediumPriorityStop s1 e
  | .LOW => executeControlledStop s1 e

/-- EmergencyStopSystem.trigger_emergency_stop: when an emergency is already
active with a current event whose level is at least the incoming level, the
call only logs and returns; otherwise it activates and runs the response
sequence. -/
def triggerEmergencyStop (s : EmergencyStopState) (e : EmergencyEvent) : EmergencyStopState :=
  match s.is_emergency_active, s.current_emergency with
  | true, some cur =>
    if e.level.value ≤ cur.level.value then s
    else activateAndExecute s e
  | _, _ => activateAndExecute s e

/-- EmergencyStopSystem.reset_emergency: a no-op (warning log only) when no
emergency is active, otherwise clear the state and notify through
_send_alerts with severity INFO. -/
def resetEmergency (s : EmergencyStopState) (operator_id reason : String) (ts : String) :
    EmergencyStopState :=
  if s.is_emergency_active = false then s
  else
    let s1 := { s with is_emergency_active := false, current_emergency := none }
    let resetEvent : EmergencyEvent :=
      { level := .LOW
        trigger := "manual_reset"
        description := "Emergency reset by " ++ operator_id ++ ": " ++ reason
        timestamp := ts
        sensor_data := { radiation_level := none, temperature := none,
                         gas_levels := [], proximity_distance := none }
        location := none
        requires_evacuation := false }
    sendAlertsOp s1 resetEvent "INFO"

/-- The response sequence the controller executes for an event of each
level, as an action list (used to state the trigger-stop theorems). -/
def responseSequence (e : EmergencyEvent) : List StopAction :=
  match e.level with
  | .CRITICAL =>
    [ .stopCallback "immediate", .evacuationAlarm, .notifyEmergencyServices e.description,
      .activateContainment, .alertCallback "CRITICAL" e.description ]
  | .HIGH =>
    [ .stopCallback "immediate", .alertCallback "EMERGENCY" e.description,
      .initiateSafetyProtocols ]
  | .MEDIUM =>
    [ .stopCallback "controlled", .alertCallback "WARNING" e.description ]
  | .LOW =>
    [ .stopCallback "gradual", .alertCallback "INFO" e.description ]

/-- Concrete active alert used to exercise the escalation-fire theorem. -/
def sampleC1Alert : Alert :=
  { id := "a0", severity := .CRITICAL, title := "T", message := "M",
    timestamp := "t0", source := "src", location := some "lab",
    sensor_data := some [("radiation_level", 3)],
    requires_acknowledgment := true, auto_escalate_after := some 300,
    tags := ["x"] }

/-- Concrete manager state holding one unacknowledged alert with a pending
300-second escalation timer. -/
def sampleC1State : AlertManagerState :=
  { active_alerts := [("a0", sampleC1Alert)]
    acknowledged_alerts := []
    subscriptions := defaultSubscriptions
    escalation_tasks := [("a0", 300)]
    alert_history := []
    delivery_log := []
    callback_log := [] }

/-- Concrete subscription with three channels, used to exercise the
partial-failure delivery theorem. -/
def sampleC8Subscription : AlertSubscription :=
  { user_id := "u"
    channels := [.email, .sms, .dashboard]
    severity_filter := [.ERROR]
    location_filter := none
    source_filter := none
    quiet_hours := none }

/-- Concrete manager state with only the three-channel subscription. -/
def sampleC8State : AlertManagerState :=
  { active_alerts := []
    acknowledged_alerts := []
    subscriptions := [sampleC8Subscription]
    escalation_tasks := []
    alert_history := []
    delivery_log := []
    callback_log := [] }

/-- Concrete adapters where exactly the sms channel adapter always raises. -/
def sampleC8Adapters : Adapters :=
  fun ch _ => if ch = AlertChannel.sms then Except.error "boom" else Except.ok ()

/-- Predicate used by the spec transcription for the gas check: the snapshot
entry is a tracked gas at or above its critical ppm. -/
def gasAtCritical (gas_critical : List (String × Rat)) (entry : String × Rat) : Bool :=
  match alistLookup gas_critical entry.1 with
  | some c => decide (entry.2 ≥ c)
  | none => false

/-- Transcription of the classification rule as the spec states it
(spec section 4.4 and claim C4): first match in the priority order
radiation, temperature, gas, proximity, with the stated thresholds,
projected to the level and the evacuation flag.  An absent reading crosses
no threshold (matching the dict.get defaults of the source). -/
def specEvaluate (sensor_data : SensorData) : Option (EmergencyLevel × Bool) :=
  let radiation := sensor_data.radiation_level.getD 0
  let temperature := sensor_data.temperature.getD 20
  if radiation ≥ 2 then some (.CRITICAL, true)
  else if radiation ≥ 1 then some (.HIGH, false)
  else if temperature ≥ 80 then some (.HIGH, false)
  else if sensor_data.gas_levels.any (gasAtCritical gasCriticalThresholds) then
    some (.CRITICAL, true)
  else
    match sensor_data.proximity_distance with
    | some proximity => if proximity ≤ (1 : Rat) / 2 then some (.MEDIUM, false) else none
    | none => none

/-- Transcription of the subscription matching rule exactly as claim C9
words it: severity in the filter, and (no location filter or the alert
location is an element of the location filter), and (no source filter or
the source is an element of the source filter).  An alert without a
location has no location in any filter, so a location-filtered
subscription does not match it under this rule. -/
def claimMatchRule (alert : Alert) (subscription : AlertSubscription) : Bool :=
  decide (alert.severity ∈ subscription.severity_filter) &&
  (match subscription.location_filter with
   | none => true
   | some lf =>
     match alert.location with
     | some loc => decide (loc ∈ lf)
     | none => false) &&
  (match subscription.source_filter with
   | none => true
   | some sf => decide (alert.source ∈ sf))

/-- The matching rule the source actually implements, stated in the amended
form of claim C9: severity in the filter, and (the location filter is
absent or empty, or the alert location is absent or empty, or the location
is in the filter), and (the source filter is absent or empty, or the source
is in the filter).  Quiet hours play no part at all. -/
def amendedMatchRule (alert : Alert) (subscription : AlertSubscription) : Bool :=
  decide (alert.severity ∈ subscription.severity_filter) &&
  (!(pyTruthyList subscription.location_filter) || !(pyTruthyStr alert.location) ||
    decide ((alert.location.getD "") ∈ (subscription.location_filter.getD []))) &&
  (!(pyTruthyList subscription.source_filter) ||
    decide (alert.source ∈ (subscription.source_filter.getD [])))

/-- The state invariant of claim C10: the active flag agrees with the
presence of a current emergency. -/
def emergencyInvariant (s : EmergencyStopState) : Prop :=
  s.is_emergency_active = s.current_emergency.isSome

section AlistLemmas

variable {α : Type}

theorem alistLookup_insert_self (l : List (String × α)) (k : String) (v : α) :
    alistLookup (alistInsert l k v) k = some v := by
  induction l with
  | nil => simp [alistInsert, alistLookup]
  | cons hd tl ih =>
    by_cases h : hd.1 = k
    · simp [alistInsert, alistLookup, h]
    · simp [alistInsert, alistLookup, h, ih]

theorem alistLookup_insert_ne (l : List (String × α)) (k k' : String) (v : α)
    (h : k ≠ k') : alistLookup (alistInsert l k v) k' = alistLookup l k' := by
  induction l with
  | nil => simp [alistInsert, alistLookup, h]
  | cons hd tl ih =>
    by_cases hk : hd.1 = k
    · simp [alistInsert, alistLookup, hk, h]
    · by_cases hk' : hd.1 = k'
      · simp [alistInsert, alistLookup, hk, hk', Ne.symm h]
      · simp [alistInsert, alistLookup, hk, hk', ih]

theorem alistLookup_erase_self (l : List (String × α)) (k : String) :
    alistLookup (alistErase l k) k = none := by
  induction l with
  | nil => simp [alistErase, alistLookup]
  | cons hd tl ih =>
    by_cases h : hd.1 = k
    · simpa [alistErase, List.filter, h] using ih
    · simpa [alistErase, List.filter, h, alistLookup] using ih

theorem alistLookup_erase_ne (l : List (String × α)) (k k' : String) (h : k ≠ k') :
    alistLookup (alistErase l k) k' = alistLookup l k' := by
  induction l with
  | nil => simp [alistErase, alistLookup]
  | cons hd tl ih =>
    by_cases hk : hd.1 = k
    · simpa [alistErase, List.filter, hk, alistLookup, h] using ih
    · by_cases hk' : hd.1 = k'
      · simp [alistErase, List.filter, hk, alistLookup, hk', Ne.symm h]
      · simpa [alistErase, List.filter, hk, alistLookup, hk'] using ih

end AlistLemmas

theorem findCriticalGas_eq_none_iff (gc : List (String × Rat)) (l : List (String × Rat)) :
    findCriticalGas gc l = none ↔ l.any (gasAtCritical gc) = false := by
  induction l with
  | nil => simp [findCriticalGas]
  | cons hd tl ih =>
    obtain ⟨gas, level⟩ := hd
    cases hlook : alistLookup gc gas with
    | none => simp [findCriticalGas, hlook, ih, gasAtCritical]
    | some c =>
      by_cases hge : level ≥ c
      · simp [findCriticalGas, hlook, hge, gasAtCritical]
      · simp [findCriticalGas, hlook, hge, ih, gasAtCritical]

theorem activateAndExecute_spec (s : EmergencyStopState) (e : EmergencyEvent) :
    activateAndExecute s e =
      { is_emergency_active := true
        current_emergency := some e
        emergency_history := s.emergency_history ++ [e]
        action_log := s.action_log ++ responseSequence e } := by
  cases hl : e.level <;>
    simp [activateAndExecute, executeCriticalStop, executeHighPriorityStop,
      executeMediumPriorityStop, executeControlledStop, executeImmediateStop,
      executeControlledStopSequence, executeGradualStop, triggerEvacuationAlarm,
      notifyEmergencyServicesOp, activateContainmentOp, initiateSafetyProtocolsOp,
      sendAlertsOp, sendCriticalAlerts, sendEmergencyAlerts, sendWarningAlerts,
      sendInfoAlerts, responseSequence, hl, List.append_assoc]

theorem triggerEmergencyStop_eq_activate (s : EmergencyStopState) (e : EmergencyEvent)
    (h : s.is_emergency_active = false ∨ s.current_emergency = none ∨
      ∃ cur, s.current_emergency = some cur ∧ cur.level.value < e.level.value) :
    triggerEmergencyStop s e = activateAndExecute s e := by
  rcases h with h | h | ⟨cur, hc, hlt⟩
  · cases hcur : s.current_emergency <;> simp [triggerEmergencyStop, h, hcur]
  · cases hact : s.is_emergency_active <;> simp [triggerEmergencyStop, h, hact]
  · cases hact : s.is_emergency_active
    · simp [triggerEmergencyStop, hact, hc]
    · simp [triggerEmergencyStop, hact, hc, not_le.mpr hlt]

theorem triggerEmergencyStop_noop (s : EmergencyStopState) (e : EmergencyEvent)
    (cur : EmergencyEvent) (hact : s.is_emergency_active = true)
    (hc : s.current_emergency = some cur) (hle : e.level.value ≤ cur.level.value) :
    triggerEmergencyStop s e = s := by
  simp [triggerEmergencyStop, hact, hc, hle]

/-- Claim C10: the invariant that is_emergency_active holds exactly when a
current emergency is set is established by construction and preserved by
trigger_emergency_stop (even unconditionally) and by reset_emergency. -/
theorem emergency_active_iff_current_invariant :
    emergencyInvariant initialEmergencyStopState ∧
    (∀ s e, emergencyInvariant (triggerEmergencyStop s e)) ∧
    (∀ s operator_id reason ts, emergencyInvariant s →
      emergencyInvariant (resetEmergency s operator_id reason ts)) := by
  refine ⟨rfl, ?_, ?_⟩
  · intro s e
    cases hact : s.is_emergency_active
    · rw [triggerEmergencyStop_eq_activate s e (Or.inl hact), activateAndExecute_spec]
      simp [emergencyInvariant]
    · cases hcur : s.current_emergency with
      | none =>
        rw [triggerEmergencyStop_eq_activate s e (Or.inr (Or.inl hcur)),
          activateAndExecute_spec]
        simp [emergencyInvariant]
      | some cur =>
        by_cases hle : e.level.value ≤ cur.level.value
        · rw [triggerEmergencyStop_noop s e cur hact hcur hle]
          simp [emergencyInvariant, hact, hcur]
        · rw [triggerEmergencyStop_eq_activate s e
            (Or.inr (Or.inr ⟨cur, hcur, not_le.mp hle⟩)), activateAndExecute_spec]
          simp [emergencyInvariant]
  · intro s operator_id reason ts hinv
    by_cases hact : s.is_emergency_active = false
    · simpa [resetEmergency, hact] using hinv
    · simp [resetEmergency, hact, sendAlertsOp, emergencyInvariant]

/-- Claim C10 witness: the invariant theorem applied at concrete states. -/
theorem emergency_active_iff_current_invariant_witness :
    emergencyInvariant
      (resetEmergency
        { is_emergency_active := true
          current_emergency := some
            { level := .MEDIUM, trigger := "proximity_emergency", description := "d",
              timestamp := "t", sensor_data := ⟨none, none, [], none⟩, location := none,
              requires_evacuation := false }
          emergency_history := []
          action_log := [] } "op7" "cleared" "t2") :=
  emergency_active_iff_current_invariant.2.2 _ "op7" "cleared" "t2" rfl

/-- Claim C5: trigger_emergency_stop is a pure no-op when an emergency is
already active at a level at least the incoming one; otherwise it activates
at the incoming event and runs exactly that level response sequence,
appending the event to the history. -/
theorem trigger_stop_monotonic_noop_or_activate (s : EmergencyStopState)
    (e : EmergencyEvent) :
    (∀ cur, s.is_emergency_active = true → s.current_emergency = some cur →
      e.level.value ≤ cur.level.value → triggerEmergencyStop s e = s) ∧
    ((s.is_emergency_active = false ∨ s.current_emergency = none ∨
      ∃ cur, s.current_emergency = some cur ∧ cur.level.value < e.level.value) →
      triggerEmergencyStop s e =
        { is_emergency_active := true
          current_emergency := some e
          emergency_history := s.emergency_history ++ [e]
          action_log := s.action_log ++ responseSequence e }) := by
  constructor
  · intro cur hact hc hle
    exact triggerEmergencyStop_noop s e cur hact hc hle
  · intro h
    rw [triggerEmergencyStop_eq_activate s e h, activateAndExecute_spec]

/-- Claim C5 witness: a MEDIUM event against an already active CRITICAL emergency is
a no-op, and a CRITICAL event from the idle state activates and runs the
CRITICAL response sequence. -/
theorem trigger_stop_monotonic_noop_or_activate_witness :
    (triggerEmergencyStop
      { is_emergency_active := true
        current_emergency := some
          { level := .CRITICAL, trigger := "radiation_critical", description := "d1",
            timestamp := "t1", sensor_data := ⟨none, none, [], none⟩, location := none,
            requires_evacuation := true }
        emergency_history := []
        action_log := [] }
      { level := .MEDIUM, trigger := "proximity_emergency", description := "d2",
        timestamp := "t2", sensor_data := ⟨none, none, [], none⟩, location := none,
        requires_evacuation := false } =
      { is_emergency_active := true
        current_emergency := some
          { level := .CRITICAL, trigger := "radiation_critical", description := "d1",
            timestamp := "t1", sensor_data := ⟨none, none, [], none⟩, location := none,
            requires_evacuation := true }
        emergency_history := []
        action_log := [] }) ∧
    (triggerEmergencyStop initialEmergencyStopState
      { level := .CRITICAL, trigger := "radiation_critical", description := "d1",
        timestamp := "t1", sensor_data := ⟨none, none, [], none⟩, location := none,
        requires_evacuation := true } =
      { is_emergency_active := true
        current_emergency := some
          { level := .CRITICAL, trigger := "radiation_critical", description := "d1",
            timestamp := "t1", sensor_data := ⟨none, none, [], none⟩, location := none,
            requires_evacuation := true }
        emergency_history := [
          { level := .CRITICAL, trigger := "radiation_critical", description := "d1",
            timestamp := "t1", sensor_data := ⟨none, none, [], none⟩, location := none,
            requires_evacuation := true } ]
        action_log := responseSequence
          { level := .CRITICAL, trigger := "radiation_critical", description := "d1",
            timestamp := "t1", sensor_data := ⟨none, none, [], none⟩, location := none,
            requires_evacuation := true } }) := by
  constructor
  · exact (trigger_stop_monotonic_noop_or_activate _ _).1 _ rfl rfl (by decide)
  · simpa using (trigger_stop_monotonic_noop_or_activate initialEmergencyStopState _).2
      (Or.inl rfl)

/-- Claim C3 counterexample: triggering a CRITICAL-level event from the idle
state runs immediate stop, evacuation alarm, emergency services, containment
and then an alert with severity string CRITICAL, never one with severity
EMERGENCY — refuting the claim that the CRITICAL sequence ends in an
EMERGENCY-severity alert (and, symmetrically, the HIGH sequence raises at
EMERGENCY, not CRITICAL). -/
theorem critical_stop_alert_severity_counterexample :
    (triggerEmergencyStop initialEmergencyStopState
      { level := .CRITICAL, trigger := "radiation_critical", description := "d",
        timestamp := "t", sensor_data := ⟨none, none, [], none⟩, location := none,
        requires_evacuation := true }).action_log =
      [ .stopCallback "immediate", .evacuationAlarm, .notifyEmergencyServices "d",
        .activateContainment, .alertCallback "CRITICAL" "d" ] ∧
    StopAction.alertCallback "EMERGENCY" "d" ∉
      (triggerEmergencyStop initialEmergencyStopState
        { level := .CRITICAL, trigger := "radiation_critical", description := "d",
          timestamp := "t", sensor_data := ⟨none, none, [], none⟩, location := none,
          requires_evacuation := true }).action_log ∧
    (triggerEmergencyStop initialEmergencyStopState
      { level := .HIGH, trigger := "temperature_critical", description := "d",
        timestamp := "t", sensor_data := ⟨none, none, [], none⟩, location := none,
        requires_evacuation := false }).action_log =
      [ .stopCallback "immediate", .alertCallback "EMERGENCY" "d",
        .initiateSafetyProtocols ] := by
  refine ⟨?_, ?_, ?_⟩ <;> decide

/-- Claim C3 amended: whenever trigger_emergency_stop proceeds (no equal or
stronger emergency already active), a CRITICAL-level event runs
immediate-stop, evacuation alarm, emergency-services notification,
containment, then the alert pass at severity string CRITICAL; a HIGH-level
event runs immediate-stop, then the alert pass at severity string
EMERGENCY, then the enhanced-safety-protocol step. -/
theorem stop_response_sequences (s : EmergencyStopState) (e : EmergencyEvent)
    (hproceed : s.is_emergency_active = false ∨ s.current_emergency = none ∨
      ∃ cur, s.current_emergency = some cur ∧ cur.level.value < e.level.value) :
    (e.level = .CRITICAL →
      (triggerEmergencyStop s e).action_log = s.action_log ++
        [ .stopCallback "immediate", .evacuationAlarm,
          .notifyEmergencyServices e.description, .activateContainment,
          .alertCallback "CRITICAL" e.description ]) ∧
    (e.level = .HIGH →
      (triggerEmergencyStop s e).action_log = s.action_log ++
        [ .stopCallback "immediate", .alertCallback "EMERGENCY" e.description,
          .initiateSafetyProtocols ]) := by
  rw [triggerEmergencyStop_eq_activate s e hproceed, activateAndExecute_spec]
  constructor
  · intro hl
    simp [responseSequence, hl]
  · intro hl
    simp [responseSequence, hl]

/-- Claim C3 amended witness: the amended sequence theorem applied to a
concrete CRITICAL event from the idle state. -/
theorem stop_response_sequences_witness :
    (triggerEmergencyStop initialEmergencyStopState
      { level := .CRITICAL, trigger := "radiation_critical", description := "dw",
        timestamp := "t", sensor_data := ⟨none, none, [], none⟩, location := none,
        requires_evacuation := true }).action_log =
      [ .stopCallback "immediate", .evacuationAlarm, .notifyEmergencyServices "dw",
        .activateContainment, .alertCallback "CRITICAL" "dw" ] := by
  simpa using (stop_response_sequences initialEmergencyStopState
    { level := .CRITICAL, trigger := "radiation_critical", description := "dw",
      timestamp := "t", sensor_data := ⟨none, none, [], none⟩, location := none,
      requires_evacuation := true } (Or.inl rfl)).1 rfl

/-- Claim C4: check_emergency_conditions is a pure function of the snapshot
(the embedding gives it no access to any mutable state, matching the source,
which only reads the constructor-set thresholds), and its result agrees
everywhere with the spec classification rule: at most one event, first match
in the order radiation critical, radiation high, temperature, tracked gas,
proximity, with the stated thresholds, level and evacuation flag, and none
when no threshold is crossed. -/
theorem check_emergency_conditions_matches_spec (ts : String) (sd : SensorData) :
    (checkEmergencyConditions defaultThresholds ts sd).map
      (fun e => (e.level, e.requires_evacuation)) = specEvaluate sd := by
  by_cases h1 : sd.radiation_level.getD 0 ≥ (2 : Rat)
  · simp [checkEmergencyConditions, specEvaluate, defaultThresholds, h1]
  · by_cases h2 : sd.radiation_level.getD 0 ≥ (1 : Rat)
    · simp [checkEmergencyConditions, specEvaluate, defaultThresholds, h1, h2]
    · by_cases h3 : sd.temperature.getD 20 ≥ (80 : Rat)
      · simp [checkEmergencyConditions, specEvaluate, defaultThresholds, h1, h2, h3]
      · cases hg : findCriticalGas gasCriticalThresholds sd.gas_levels with
        | some p =>
          have hany : sd.gas_levels.any (gasAtCritical gasCriticalThresholds) = true := by
            cases hA : sd.gas_levels.any (gasAtCritical gasCriticalThresholds)
            · rw [(findCriticalGas_eq_none_iff gasCriticalThresholds sd.gas_levels).2 hA]
                at hg
              exact absurd hg (by simp)
            · rfl
          obtain ⟨gas, level⟩ := p
          simp [checkEmergencyConditions, specEvaluate, defaultThresholds, h1, h2, h3,
            hg, hany]
        | none =>
          have hany : sd.gas_levels.any (gasAtCritical gasCriticalThresholds) = false :=
            (findCriticalGas_eq_none_iff gasCriticalThresholds sd.gas_levels).1 hg
          cases hp : sd.proximity_distance with
          | none =>
            simp [checkEmergencyConditions, specEvaluate, defaultThresholds, h1, h2, h3,
              hg, hany, hp]
          | some proximity =>
            by_cases h5 : proximity ≤ (1 : Rat) / 2
            · simp [checkEmergencyConditions, specEvaluate, defaultThresholds, h1, h2,
                h3, hg, hany, hp, h5]
            · simp [checkEmergencyConditions, specEvaluate, defaultThresholds, h1, h2,
                h3, hg, hany, hp, h5]

/-- Claim C7: acknowledging or resolving an id that is not in the active set
raises the not-found ValueError (the NotFoundError of the spec taxonomy) and
returns with every part of the manager state untouched, since the exception
is raised before any mutation. -/
theorem unknown_id_ack_resolve_not_found (adapters : Adapters) (s : AlertManagerState)
    (ts alert_id user_id message resolution_message : String)
    (h : alistLookup s.active_alerts alert_id = none) :
    acknowledgeAlert adapters s ts alert_id user_id message =
      (some ("Alert " ++ alert_id ++ " not found or already resolved"), s) ∧
    resolveAlert adapters s ts alert_id user_id resolution_message =
      (some ("Alert " ++ alert_id ++ " not found or already resolved"), s) := by
  constructor
  · simp [acknowledgeAlert, h]
  · simp [resolveAlert, h]

/-- Claim C7 witness: the not-found theorem applied to the freshly
initialised manager state and an unknown id. -/
theorem unknown_id_ack_resolve_not_found_witness :
    acknowledgeAlert (fun _ _ => Except.ok ()) initialAlertManagerState "t"
        "missing" "u" "m" =
      (some "Alert missing not found or already resolved", initialAlertManagerState) ∧
    resolveAlert (fun _ _ => Except.ok ()) initialAlertManagerState "t"
        "missing" "u" "r" =
      (some "Alert missing not found or already resolved", initialAlertManagerState) :=
  unknown_id_ack_resolve_not_found (fun _ _ => Except.ok ()) initialAlertManagerState
    "t" "missing" "u" "m" "r" rfl

/-- Claim C9 counterexample: an alert with no location is delivered by the
source matching rule to a subscription that carries a location filter, while
the matching rule as the claim words it (no location filter OR the alert
location is in the filter) rejects it — so the claimed equivalence fails. -/
theorem subscription_match_location_counterexample :
    shouldDeliverToSubscription
      { id := "a1", severity := .INFO, title := "t", message := "m", timestamp := "ts",
        source := "sensor_fusion", location := none, sensor_data := none,
        requires_acknowledgment := false, auto_escalate_after := none, tags := [] }
      { user_id := "u", channels := [.email], severity_filter := [.INFO],
        location_filter := some ["room_a"], source_filter := none,
        quiet_hours := none } = true ∧
    claimMatchRule
      { id := "a1", severity := .INFO, title := "t", message := "m", timestamp := "ts",
        source := "sensor_fusion", location := none, sensor_data := none,
        requires_acknowledgment := false, auto_escalate_after := none, tags := [] }
      { user_id := "u", channels := [.email], severity_filter := [.INFO],
        location_filter := some ["room_a"], source_filter := none,
        quiet_hours := none } = false := by
  constructor <;> decide

/-- Claim C9 amended: the source delivers an alert to a subscription exactly
when the severity is in the filter, the location filter is absent or empty
or the alert location is absent or empty or contained in the filter, and
the source filter is absent or empty or contains the alert source; the
quiet-hours field has no influence on the decision at all (so in particular
quiet hours never suppress CRITICAL or EMERGENCY alerts). -/
theorem should_deliver_matches_amended_rule :
    (∀ alert subscription,
      shouldDeliverToSubscription alert subscription = amendedMatchRule alert subscription) ∧
    (∀ alert subscription qh,
      shouldDeliverToSubscription alert { subscription with quiet_hours := qh } =
        shouldDeliverToSubscription alert subscription) := by
  constructor
  · intro alert subscription
    cases hsev : decide (alert.severity ∈ subscription.severity_filter) <;>
      cases hlf : pyTruthyList subscription.location_filter <;>
        cases hloc : pyTruthyStr alert.location <;>
          cases hlmem : decide ((alert.location.getD "") ∈
              (subscription.location_filter.getD [])) <;>
            cases hsf : pyTruthyList subscription.source_filter <;>
              cases hsmem : decide (alert.source ∈ (subscription.source_filter.getD [])) <;>
                simp [shouldDeliverToSubscription, amendedMatchRule, hsev, hlf, hloc,
                  hlmem, hsf, hsmem]
  · intro alert subscription qh
    simp [shouldDeliverToSubscription]

/-- Claim C6 failing input: the id scheme
alert_timestamp_len(active_alerts) collides.  Raise A, raise B, resolve A,
raise C within one timestamp second: the resolve shrinks the active count,
so C receives the same id B already got — two distinct send_alert calls in
one process returning equal ids.  The collision also silently replaces the
still-active alert B in the active store with the INFO resolution notice
(its title is Alert Resolved: A), losing B. -/
theorem alert_id_collision_failing_input :
    ((sendAlert (fun _ _ => Except.ok ())
        ((sendAlert (fun _ _ => Except.ok ()) initialAlertManagerState "20240101_120000"
          .INFO "A" "m" "src" none none (some false) none none).2) "20240101_120000"
        .INFO "B" "m" "src" none none (some false) none none).1 =
      "alert_20240101_120000_1") ∧
    ((sendAlert (fun _ _ => Except.ok ())
        ((resolveAlert (fun _ _ => Except.ok ())
          ((sendAlert (fun _ _ => Except.ok ())
            ((sendAlert (fun _ _ => Except.ok ()) initialAlertManagerState
              "20240101_120000" .INFO "A" "m" "src" none none (some false) none none).2)
            "20240101_120000" .INFO "B" "m" "src" none none (some false) none none).2)
          "20240101_120000" "alert_20240101_120000_0" "operator" "done").2)
        "20240101_120000" .INFO "C" "m" "src" none none (some false) none none).1 =
      "alert_20240101_120000_1") ∧
    ((alistLookup
        ((resolveAlert (fun _ _ => Except.ok ())
          ((sendAlert (fun _ _ => Except.ok ())
            ((sendAlert (fun _ _ => Except.ok ()) initialAlertManagerState
              "20240101_120000" .INFO "A" "m" "src" none none (some false) none none).2)
            "20240101_120000" .INFO "B" "m" "src" none none (some false) none none).2)
          "20240101_120000" "alert_20240101_120000_0" "operator" "done").2).active_alerts
        "alert_20240101_120000_1").map Alert.title = some "Alert Resolved: A") := by
  refine ⟨?_, ?_, ?_⟩ <;> decide

/-- Claim C2: a successful acknowledge and a successful resolve both cancel
the pending escalation timer of the alert (no task for the id remains), and
the fire handler re-checks liveness, so firing against a state where the
alert is no longer active or is acknowledged changes nothing — in
particular no escalation alert is ever raised for an alert that was
acknowledged or resolved before the timer fired. -/
theorem ack_or_resolve_prevents_escalation :
    (∀ (adapters : Adapters) (s : AlertManagerState) (ts alert_id user_id message : String)
      (a : Alert), alistLookup s.active_alerts alert_id = some a →
      alistLookup ((acknowledgeAlert adapters s ts alert_id user_id message).2).escalation_tasks
        alert_id = none) ∧
    (∀ (adapters : Adapters) (s : AlertManagerState) (ts alert_id user_id message : String)
      (a : Alert), alistLookup s.active_alerts alert_id = some a →
      alistLookup ((resolveAlert adapters s ts alert_id user_id message).2).escalation_tasks
        alert_id = none) ∧
    (∀ (adapters : Adapters) (s : AlertManagerState) (ts alert_id : String) (d : Nat),
      alistLookup s.active_alerts alert_id = none ∨
        (alistLookup s.acknowledged_alerts alert_id).isSome = true →
      autoEscalateFire adapters s ts alert_id d = s) := by
  refine ⟨?_, ?_, ?_⟩
  · intro adapters s ts alert_id user_id message a h
    simp [acknowledgeAlert, h, sendAlert, mkSentAlert, resolveRequiresAck,
      resolveEscalateAfter, escalationTime, pyTruthyNat, deliverAlert,
      alistLookup_erase_self]
  · intro adapters s ts alert_id user_id message a h
    simp [resolveAlert, h, sendAlert, mkSentAlert, resolveRequiresAck,
      resolveEscalateAfter, escalationTime, pyTruthyNat, deliverAlert,
      alistLookup_erase_self]
  · intro adapters s ts alert_id d h
    rcases h with h | h
    · simp [autoEscalateFire, h]
    · cases hact : alistLookup s.active_alerts alert_id with
      | none => simp [autoEscalateFire, hact]
      | some a =>
        cases hack : alistLookup s.acknowledged_alerts alert_id with
        | none => rw [hack] at h; exact absurd h (by simp)
        | some ack => simp [autoEscalateFire, hact, hack]

/-- Claim C2 witness: the cancellation and liveness-guard theorem applied to
a concrete state with one active, timer-pending alert. -/
theorem ack_or_resolve_prevents_escalation_witness :
    (alistLookup
      ((acknowledgeAlert (fun _ _ => Except.ok ())
        { active_alerts := [("a0",
            { id := "a0", severity := .CRITICAL, title := "T", message := "M",
              timestamp := "t0", source := "src", location := none, sensor_data := none,
              requires_acknowledgment := true, auto_escalate_after := some 300,
              tags := [] })]
          acknowledged_alerts := []
          subscriptions := defaultSubscriptions
          escalation_tasks := [("a0", 300)]
          alert_history := []
          delivery_log := []
          callback_log := [] } "t1" "a0" "operator" "seen").2).escalation_tasks
      "a0" = none) ∧
    (autoEscalateFire (fun _ _ => Except.ok ())
      { active_alerts := []
        acknowledged_alerts := []
        subscriptions := defaultSubscriptions
        escalation_tasks := []
        alert_history := []
        delivery_log := []
        callback_log := [] } "t2" "a0" 300 =
      { active_alerts := []
        acknowledged_alerts := []
        subscriptions := defaultSubscriptions
        escalation_tasks := []
        alert_history := []
        delivery_log := []
        callback_log := [] }) := by
  constructor
  · exact ack_or_resolve_prevents_escalation.1 (fun _ _ => Except.ok ()) _ "t1" "a0"
      "operator" "seen" _ rfl
  · exact ack_or_resolve_prevents_escalation.2.2 (fun _ _ => Except.ok ()) _ "t2" "a0"
      300 (Or.inl rfl)

/-- Claim C1: when the escalation timer of a requires-acknowledgment alert
with a finite delay fires and the alert is still active and unacknowledged,
exactly one new alert is appended to the history; it has severity EMERGENCY
whatever the original severity was (hence at least the original and never
past EMERGENCY), its title is the original title with the ESCALATED: prefix,
its tags are escalated plus the original tags, it carries the original
location and sensor payload, and the original alert stays in the active
store, unacknowledged and unresolved.  The freshness hypothesis states that
the id generated for the escalation alert differs from the original id. -/
theorem escalation_fire_raises_single_emergency_alert (adapters : Adapters)
    (s : AlertManagerState) (ts alert_id : String) (d : Nat) (a : Alert)
    (ha : alistLookup s.active_alerts alert_id = some a)
    (hack : alistLookup s.acknowledged_alerts alert_id = none)
    (_hreq : a.requires_acknowledgment = true)
    (_hae : a.auto_escalate_after = some d)
    (_htimer : alistLookup s.escalation_tasks alert_id = some d)
    (hfresh : mkAlertId ts s.active_alerts.length ≠ alert_id) :
    (∃ esc : Alert,
      (autoEscalateFire adapters s ts alert_id d).alert_history =
        s.alert_history ++ [esc] ∧
      esc.severity = .EMERGENCY ∧
      esc.title = "ESCALATED: " ++ a.title ∧
      esc.tags = "escalated" :: a.tags ∧
      esc.location = a.location ∧
      esc.sensor_data = a.sensor_data) ∧
    alistLookup (autoEscalateFire adapters s ts alert_id d).active_alerts alert_id =
      some a ∧
    (autoEscalateFire adapters s ts alert_id d).acknowledged_alerts =
      s.acknowledged_alerts := by
  refine ⟨⟨mkSentAlert ts s.active_alerts.length .EMERGENCY ("ESCALATED: " ++ a.title)
      ("Alert " ++ alert_id ++ " was not acknowledged within " ++ toString d ++
        " seconds. Original: " ++ a.message)
      "alert_escalation" a.location a.sensor_data none none
      (some (["escalated"] ++ a.tags)), ?_, ?_, ?_, ?_, ?_, ?_⟩, ?_, ?_⟩ <;>
    simp [autoEscalateFire, ha, hack, sendAlert, deliverAlert, mkSentAlert,
      resolveRequiresAck, resolveEscalateAfter, escalationTime, pyTruthyNat,
      apply_ite, alistLookup_insert_ne _ _ _ _ hfresh, ha]

/-- Claim C1 witness: the escalation-fire theorem applied to a concrete
manager state holding one unacknowledged CRITICAL alert with a pending
300-second timer. -/
theorem escalation_fire_raises_single_emergency_alert_witness :
    (∃ esc : Alert,
      (autoEscalateFire (fun _ _ => Except.ok ()) sampleC1State "t1" "a0" 300).alert_history =
        sampleC1State.alert_history ++ [esc] ∧
      esc.severity = .EMERGENCY ∧
      esc.title = "ESCALATED: " ++ sampleC1Alert.title ∧
      esc.tags = "escalated" :: sampleC1Alert.tags ∧
      esc.location = sampleC1Alert.location ∧
      esc.sensor_data = sampleC1Alert.sensor_data) ∧
    alistLookup (autoEscalateFire (fun _ _ => Except.ok ()) sampleC1State "t1" "a0"
        300).active_alerts "a0" = some sampleC1Alert ∧
    (autoEscalateFire (fun _ _ => Except.ok ()) sampleC1State "t1" "a0"
        300).acknowledged_alerts = sampleC1State.acknowledged_alerts :=
  escalation_fire_raises_single_emergency_alert (fun _ _ => Except.ok ()) sampleC1State
    "t1" "a0" 300 sampleC1Alert rfl rfl rfl rfl rfl (by decide)

section SendAlertLemmas

variable (adapters : Adapters) (s : AlertManagerState) (ts : String)
variable (severity : AlertSeverity) (title message source : String)
variable (location : Option String) (sensor_data : Option SensorPayload)
variable (requires_acknowledgment : Option Bool) (auto_escalate_after : Option Nat)
variable (tags : Option (List String))

theorem sendAlert_fst :
    (sendAlert adapters s ts severity title message source location sensor_data
      requires_acknowledgment auto_escalate_after tags).1 =
      mkAlertId ts s.active_alerts.length := by
  simp [sendAlert]

theorem sendAlert_active_alerts :
    (sendAlert adapters s ts severity title message source location sensor_data
      requires_acknowledgment auto_escalate_after tags).2.active_alerts =
      alistInsert s.active_alerts (mkAlertId ts s.active_alerts.length)
        (mkSentAlert ts s.active_alerts.length severity title message source location
          sensor_data requires_acknowledgment auto_escalate_after tags) := by
  simp [sendAlert, deliverAlert, apply_ite]

theorem sendAlert_history :
    (sendAlert adapters s ts severity title message source location sensor_data
      requires_acknowledgment auto_escalate_after tags).2.alert_history =
      s.alert_history ++
        [mkSentAlert ts s.active_alerts.length severity title message source location
          sensor_data requires_acknowledgment auto_escalate_after tags] := by
  simp [sendAlert, deliverAlert, apply_ite]

theorem sendAlert_escalation_tasks :
    (sendAlert adapters s ts severity title message source location sensor_data
      requires_acknowledgment auto_escalate_after tags).2.escalation_tasks =
      if pyTruthyNat (resolveEscalateAfter severity auto_escalate_after)
          && resolveRequiresAck severity requires_acknowledgment then
        alistInsert s.escalation_tasks (mkAlertId ts s.active_alerts.length)
          ((resolveEscalateAfter severity auto_escalate_after).getD 0)
      else s.escalation_tasks := by
  by_cases hc : (pyTruthyNat (resolveEscalateAfter severity auto_escalate_after)
      && resolveRequiresAck severity requires_acknowledgment) = true
  · simp [sendAlert, deliverAlert, mkSentAlert, hc]
  · simp [sendAlert, deliverAlert, mkSentAlert, hc]

theorem sendAlert_delivery_log :
    (sendAlert adapters s ts severity title message source location sensor_data
      requires_acknowledgment auto_escalate_after tags).2.delivery_log =
      s.delivery_log ++ matchedDeliveries adapters s.subscriptions
        (mkSentAlert ts s.active_alerts.length severity title message source location
          sensor_data requires_acknowledgment auto_escalate_after tags) := by
  simp [sendAlert, deliverAlert, apply_ite]

end SendAlertLemmas

/-- Claim C8: per-channel delivery failures are isolated.  The returned
alert id, the stored alert, the history and the escalation timers do not
depend on the channel adapters at all (so a failing adapter never fails the
raise call); the delivery log of a raise call records exactly one attempt
per channel of every matched subscription, each attempt depending only on
that channel adapter call (so one failure never removes another channel
attempt); and concretely, with three subscribed channels of which the sms
adapter always fails, the call still returns the id and the two other
channels still receive the alert. -/
theorem delivery_partial_failure_isolated :
    (∀ (f g : Adapters) (s : AlertManagerState) (ts : String)
      (severity : AlertSeverity) (title message source : String)
      (location : Option String) (sensor_data : Option SensorPayload)
      (ra : Option Bool) (ae : Option Nat) (tags : Option (List String)),
      (sendAlert f s ts severity title message source location sensor_data ra ae
          tags).1 =
        (sendAlert g s ts severity title message source location sensor_data ra ae
          tags).1 ∧
      (sendAlert f s ts severity title message source location sensor_data ra ae
          tags).2.active_alerts =
        (sendAlert g s ts severity title message source location sensor_data ra ae
          tags).2.active_alerts ∧
      (sendAlert f s ts severity title message source location sensor_data ra ae
          tags).2.alert_history =
        (sendAlert g s ts severity title message source location sensor_data ra ae
          tags).2.alert_history ∧
      (sendAlert f s ts severity title message source location sensor_data ra ae
          tags).2.escalation_tasks =
        (sendAlert g s ts severity title message source location sensor_data ra ae
          tags).2.escalation_tasks) ∧
    (∀ (f : Adapters) (s : AlertManagerState) (ts : String)
      (severity : AlertSeverity) (title message source : String)
      (location : Option String) (sensor_data : Option SensorPayload)
      (ra : Option Bool) (ae : Option Nat) (tags : Option (List String)),
      (sendAlert f s ts severity title message source location sensor_data ra ae
          tags).2.delivery_log =
        s.delivery_log ++ matchedDeliveries f s.subscriptions
          (mkSentAlert ts s.active_alerts.length severity title message source
            location sensor_data ra ae tags)) ∧
    ((sendAlert sampleC8Adapters sampleC8State "t" .ERROR "T" "M" "src" none none
        (some false) (some 0) none).1 = "alert_t_0" ∧
      (sendAlert sampleC8Adapters sampleC8State "t" .ERROR "T" "M" "src" none none
        (some false) (some 0) none).2.delivery_log =
        [ { user_id := "u", channel := .email, alert_id := "alert_t_0", ok := true },
          { user_id := "u", channel := .sms, alert_id := "alert_t_0", ok := false },
          { user_id := "u", channel := .dashboard, alert_id := "alert_t_0",
            ok := true } ]) := by
  refine ⟨?_, ?_, by constructor <;> decide⟩
  · intro f g s ts severity title message source location sensor_data ra ae tags
    refine ⟨?_, ?_, ?_, ?_⟩
    · rw [sendAlert_fst, sendAlert_fst]
    · rw [sendAlert_active_alerts, sendAlert_active_alerts]
    · rw [sendAlert_history, sendAlert_history]
    · rw [sendAlert_escalation_tasks, sendAlert_escalation_tasks]
  · intro f s ts severity title message source location sensor_data ra ae tags
    exact sendAlert_delivery_log f s ts severity title message source location
      sensor_data ra ae tags

end SafetyVision
